import Mathlib

/-!
Shallow embedding of the animation timeline driver and scene composer in
src/app/components/CityTimelapse.tsx.  JavaScript numbers are idealised as
elements of a linear ordered field (instantiated at ℚ for concrete
evaluations and at ℝ where trigonometric functions appear); the JS `%`
operator on numbers is modelled by truncated division (`jsMod`).
-/

section Timeline

variable {K : Type} [LinearOrderedField K]

/-- CityTimelapse.tsx line 14: `const CYCLE_SECONDS = 22`. -/
def CYCLE_SECONDS : K := 22

/-- CityTimelapse.tsx line 16: `easeInOut(t) = t < 0.5 ? 2*t*t : -1 + (4 - 2*t)*t`. -/
def easeInOut (t : K) : K := if t < 1/2 then 2*t*t else -1 + (4 - 2*t)*t

/-- CityTimelapse.tsx line 20: `clamp01(x) = Math.min(1, Math.max(0, x))`. -/
def clamp01 (x : K) : K := min 1 (max 0 x)

/-- CityTimelapse.tsx line 24: `remap(x, inMin, inMax) = clamp01((x - inMin) / (inMax - inMin))`. -/
def remap (x inMin inMax : K) : K := clamp01 ((x - inMin) / (inMax - inMin))

/-- JavaScript number truncation toward zero, as used by the `%` operator. -/
def jsTrunc [FloorRing K] (x : K) : ℤ := if x < 0 then ⌈x⌉ else ⌊x⌋

/-- JavaScript `a % b` on numbers: `a - b * trunc(a / b)`. -/
def jsMod [FloorRing K] (a b : K) : K := a - b * (jsTrunc (a / b) : K)

/-- The per-frame phase, computed in every `useFrame` callback as
`(t % CYCLE_SECONDS) / CYCLE_SECONDS` (CityTimelapse.tsx lines 79, 123, 215, 297, 354). -/
def phase [FloorRing K] (t : K) : K := jsMod t CYCLE_SECONDS / CYCLE_SECONDS

/-- CityTimelapse.tsx line 81: blueprint grid `appear = clamp01(remap(phase, 0.2, 0.4))`. -/
def gridAppear (p : K) : K := clamp01 (remap p 0.2 0.4)

/-- CityTimelapse.tsx line 124: `construct = remap(phase, 0.4, 0.7)`. -/
def construct (p : K) : K := remap p 0.4 0.7

/-- CityTimelapse.tsx line 125: `finish = remap(phase, 0.7, 1.0)`. -/
def finish (p : K) : K := remap p 0.7 1.0

/-- CityTimelapse.tsx line 128: `foundationRise = easeInOut(construct)`. -/
def foundationRise (p : K) : K := easeInOut (construct p)

/-- CityTimelapse.tsx line 130: `frameRise = easeInOut(clamp01(construct * 1.1 - 0.15))`. -/
def frameRise (p : K) : K := easeInOut (clamp01 (construct p * 1.1 - 0.15))

/-- CityTimelapse.tsx line 132: `skinAppear = easeInOut(finish)`. -/
def skinAppear (p : K) : K := easeInOut (finish p)

/-- CityTimelapse.tsx line 180: `fdMat.opacity = 0.9 * foundationRise * (1.0 - 0.2 * skinAppear)`. -/
def foundationOpacity (p : K) : K := 0.9 * foundationRise p * (1.0 - 0.2 * skinAppear p)

/-- CityTimelapse.tsx line 181: `fMat.opacity = clamp01(frameRise * (1.0 - 0.6 * skinAppear))`. -/
def frameOpacity (p : K) : K := clamp01 (frameRise p * (1.0 - 0.6 * skinAppear p))

/-- CityTimelapse.tsx line 182: `sMat.opacity = clamp01(0.15 + 0.85 * skinAppear)`. -/
def skinOpacity (p : K) : K := clamp01 (0.15 + 0.85 * skinAppear p)

/-- CityTimelapse.tsx lines 149-150: the skin instance's vertical scale is
`Math.max(0.01, height * clamp01(skinAppear))`. -/
def skinScaleY (height p : K) : K := max 0.01 (height * clamp01 (skinAppear p))

/-- CityTimelapse.tsx lines 302-303: crane material opacity
`remap(phase, 0.4, 0.7) * 0.8 * (1.0 - remap(phase, 0.7, 1.0))`. -/
def craneOpacity (p : K) : K := remap p 0.4 0.7 * 0.8 * (1.0 - remap p 0.7 1.0)

/-- CityTimelapse.tsx line 216: roads/parks `appear = easeInOut(remap(phase, 0.7, 1.0))`. -/
def roadAppear (p : K) : K := easeInOut (remap p 0.7 1.0)

end Timeline

/-- CityTimelapse.tsx line 80: grid `pulse = 0.6 + 0.4 * Math.sin(t * 2.2)`. -/
noncomputable def pulse (t : ℝ) : ℝ := 0.6 + 0.4 * Real.sin (t * 2.2)

/-- CityTimelapse.tsx line 82: the blueprint grid material opacity set each frame,
`mat.opacity = appear * pulse`. -/
noncomputable def gridOpacity (t : ℝ) : ℝ := gridAppear (phase t) * pulse t

/-- CityTimelapse.tsx line 355: `orbit = 0.2 + 0.8 * easeInOut(remap(phase, 0.0, 1.0))`. -/
noncomputable def cameraOrbit (t : ℝ) : ℝ := 0.2 + 0.8 * easeInOut (remap (phase t) 0.0 1.0)

/-- CityTimelapse.tsx line 357: `angle = t * 0.12 + orbit * Math.PI * 1.5`. -/
noncomputable def cameraAngle (t : ℝ) : ℝ := t * 0.12 + cameraOrbit t * Real.pi * 1.5

/-- CityTimelapse.tsx line 358: camera height `y = 25 + Math.sin(t * 0.25) * 6`. -/
noncomputable def cameraY (t : ℝ) : ℝ := 25 + Real.sin (t * 0.25) * 6

/-- CityTimelapse.tsx line 359: camera x coordinate `Math.cos(angle) * radius` with radius 90. -/
noncomputable def cameraX (t : ℝ) : ℝ := Real.cos (cameraAngle t) * 90

/-- CityTimelapse.tsx line 359: camera z coordinate `Math.sin(angle) * radius` with radius 90. -/
noncomputable def cameraZ (t : ℝ) : ℝ := Real.sin (cameraAngle t) * 90

/-- CityTimelapse.tsx lines 99-100: the loop counters `for (let x = -40; x <= 40; x += 8)`. -/
def gridCoords : List ℤ := (List.range 11).map (fun k => -40 + 8 * (k : ℤ))

/-- CityTimelapse.tsx line 225: road centre lines `for (let i = -48; i <= 48; i += 16)`. -/
def roadLines : List ℤ := (List.range 7).map (fun k => -48 + 16 * (k : ℤ))

/-- CityTimelapse.tsx lines 99-108: the kept building grid cells — every pair from the
two nested loops except those skipped by `if (x % 16 === 0 || z % 16 === 0) continue`. -/
def footprintCells : List (ℤ × ℤ) :=
  gridCoords.flatMap (fun x =>
    gridCoords.filterMap (fun z =>
      if x % 16 = 0 ∨ z % 16 = 0 then none else some (x, z)))

section Lemmas

variable {K : Type} [LinearOrderedField K]

theorem clamp01_nonneg (x : K) : 0 ≤ clamp01 x := by
  unfold clamp01
  exact le_min zero_le_one (le_max_left 0 x)

theorem clamp01_le_one (x : K) : clamp01 x ≤ 1 := min_le_left 1 _

theorem clamp01_eq_self {x : K} (h0 : 0 ≤ x) (h1 : x ≤ 1) : clamp01 x = x := by
  unfold clamp01
  rw [max_eq_right h0, min_eq_right h1]

theorem clamp01_eq_zero {x : K} (h : x ≤ 0) : clamp01 x = 0 := by
  unfold clamp01
  rw [max_eq_left h, min_eq_right zero_le_one]

theorem clamp01_eq_one {x : K} (h : 1 ≤ x) : clamp01 x = 1 := by
  unfold clamp01
  rw [max_eq_right (le_trans zero_le_one h), min_eq_left h]

theorem clamp01_le_of_le {x c : K} (hx : x ≤ c) (hc : 0 ≤ c) : clamp01 x ≤ c := by
  unfold clamp01
  exact le_trans (min_le_right 1 _) (max_le hc hx)

theorem remap_nonneg (x a b : K) : 0 ≤ remap x a b := clamp01_nonneg _

theorem remap_le_one (x a b : K) : remap x a b ≤ 1 := clamp01_le_one _

theorem easeInOut_nonneg {t : K} (h0 : 0 ≤ t) (h1 : t ≤ 1) : 0 ≤ easeInOut t := by
  unfold easeInOut
  split_ifs with h
  · positivity
  · nlinarith [not_lt.mp h]

theorem easeInOut_le_one {t : K} (h0 : 0 ≤ t) (h1 : t ≤ 1) : easeInOut t ≤ 1 := by
  unfold easeInOut
  split_ifs with h
  · nlinarith
  · nlinarith [not_lt.mp h]

theorem easeInOut_mono {a b : K} (ha : 0 ≤ a) (hab : a ≤ b) (hb : b ≤ 1) :
    easeInOut a ≤ easeInOut b := by
  unfold easeInOut
  split_ifs with h1 h2 h2
  · nlinarith
  · nlinarith [not_lt.mp h2]
  · exact absurd (lt_of_le_of_lt hab h2) (not_lt.mpr (not_lt.mp h1))
  · nlinarith [not_lt.mp h1, not_lt.mp h2]

theorem easeInOut_zero : easeInOut (0 : K) = 0 := by
  unfold easeInOut
  rw [if_pos (by norm_num : (0:K) < 1/2)]
  ring

end Lemmas

section PhaseLemmas

variable {K : Type} [LinearOrderedField K] [FloorRing K]

theorem jsTrunc_of_nonneg {x : K} (h : 0 ≤ x) : jsTrunc x = ⌊x⌋ := by
  unfold jsTrunc
  rw [if_neg (not_lt.mpr h)]

theorem phase_eq_fract {t : K} (h : 0 ≤ t) : phase t = Int.fract (t / 22) := by
  unfold phase jsMod CYCLE_SECONDS
  rw [jsTrunc_of_nonneg (by positivity), Int.fract]
  ring

theorem phase_nonneg {t : K} (h : 0 ≤ t) : 0 ≤ phase t := by
  rw [phase_eq_fract h]
  exact Int.fract_nonneg _

theorem phase_lt_one {t : K} (h : 0 ≤ t) : phase t < 1 := by
  rw [phase_eq_fract h]
  exact Int.fract_lt_one _

theorem phase_add_cycle {t : K} (h : 0 ≤ t) : phase (t + 22) = phase t := by
  rw [phase_eq_fract h, phase_eq_fract (by linarith : (0:K) ≤ t + 22),
    show (t + 22) / 22 = t / 22 + 1 by ring, Int.fract_add_one]

theorem phase_of_Ico {t : K} (h0 : 0 ≤ t) (h1 : t < 22) : phase t = t / 22 := by
  rw [phase_eq_fract h0]
  exact Int.fract_eq_self.mpr ⟨by positivity, by linarith⟩

end PhaseLemmas

/-- C8: for every elapsed time t ≥ 0 the per-frame phase equals
`(t mod 22) / 22` (with `mod` reducing to floor-based remainder on nonnegative
times), lies in [0,1), and is periodic with period `CYCLE_SECONDS = 22`. -/
theorem phase_formula_periodic :
    ∀ t : ℝ, 0 ≤ t →
      phase t = (t - 22 * (⌊t / 22⌋ : ℤ)) / 22 ∧
      0 ≤ phase t ∧ phase t < 1 ∧ phase (t + 22) = phase t := by
  intro t ht
  refine ⟨?_, phase_nonneg ht, phase_lt_one ht, phase_add_cycle ht⟩
  unfold phase jsMod CYCLE_SECONDS
  rw [jsTrunc_of_nonneg (by positivity)]

/-- C8 witness: the phase specification instantiated at the concrete time t = 5 s. -/
theorem phase_formula_periodic_witness :
    phase (5:ℝ) = (5 - 22 * (⌊(5:ℝ) / 22⌋ : ℤ)) / 22 ∧
    0 ≤ phase (5:ℝ) ∧ phase (5:ℝ) < 1 ∧ phase ((5:ℝ) + 22) = phase 5 :=
  phase_formula_periodic 5 (by norm_num)

/-- C2: the loop is not seamless — every derived progress value is 0 at phase 0,
yet just before the cycle ends (phase 0.99) the blueprint appear value is 1,
construct is 1, finish is 29/30, foundationRise is 1, frameRise is 199/200 and
skinAppear is 449/450, so the visual state at the end of a cycle does not match
the state at the start. -/
theorem loop_endpoint_mismatch :
    gridAppear (0:ℚ) = 0 ∧ gridAppear (99/100 : ℚ) = 1 ∧
    construct (0:ℚ) = 0 ∧ construct (99/100 : ℚ) = 1 ∧
    finish (0:ℚ) = 0 ∧ finish (99/100 : ℚ) = 29/30 ∧
    foundationRise (0:ℚ) = 0 ∧ foundationRise (99/100 : ℚ) = 1 ∧
    frameRise (0:ℚ) = 0 ∧ frameRise (99/100 : ℚ) = 199/200 ∧
    skinAppear (0:ℚ) = 0 ∧ skinAppear (99/100 : ℚ) = 449/450 := by
  norm_num [gridAppear, construct, finish, foundationRise, frameRise, skinAppear,
    easeInOut, remap, clamp01, min_def, max_def]

/-- C7: remap always lands in [0,1] (for any input, in particular whenever the
sub-range is proper), easeInOut maps [0,1] into [0,1], and every derived
progress value of the frame callbacks lies in [0,1] at every phase. -/
theorem derived_progress_in_unit_interval :
    (∀ x a b : ℝ, a < b → 0 ≤ remap x a b ∧ remap x a b ≤ 1) ∧
    (∀ t : ℝ, 0 ≤ t → t ≤ 1 → 0 ≤ easeInOut t ∧ easeInOut t ≤ 1) ∧
    (∀ p : ℝ,
      (0 ≤ construct p ∧ construct p ≤ 1) ∧
      (0 ≤ finish p ∧ finish p ≤ 1) ∧
      (0 ≤ gridAppear p ∧ gridAppear p ≤ 1) ∧
      (0 ≤ foundationRise p ∧ foundationRise p ≤ 1) ∧
      (0 ≤ frameRise p ∧ frameRise p ≤ 1) ∧
      (0 ≤ skinAppear p ∧ skinAppear p ≤ 1)) := by
  refine ⟨fun x a b _ => ⟨remap_nonneg x a b, remap_le_one x a b⟩,
    fun t h0 h1 => ⟨easeInOut_nonneg h0 h1, easeInOut_le_one h0 h1⟩,
    fun p => ⟨⟨remap_nonneg _ _ _, remap_le_one _ _ _⟩,
      ⟨remap_nonneg _ _ _, remap_le_one _ _ _⟩,
      ⟨clamp01_nonneg _, clamp01_le_one _⟩,
      ⟨easeInOut_nonneg (remap_nonneg _ _ _) (remap_le_one _ _ _),
        easeInOut_le_one (remap_nonneg _ _ _) (remap_le_one _ _ _)⟩,
      ⟨easeInOut_nonneg (clamp01_nonneg _) (clamp01_le_one _),
        easeInOut_le_one (clamp01_nonneg _) (clamp01_le_one _)⟩,
      ⟨easeInOut_nonneg (remap_nonneg _ _ _) (remap_le_one _ _ _),
        easeInOut_le_one (remap_nonneg _ _ _) (remap_le_one _ _ _)⟩⟩⟩

/-- C7 witness: the unit-interval invariant instantiated at concrete inputs. -/
theorem derived_progress_in_unit_interval_witness :
    (0 ≤ remap (5:ℝ) 0 1 ∧ remap (5:ℝ) 0 1 ≤ 1) ∧
    (0 ≤ easeInOut (1/2:ℝ) ∧ easeInOut (1/2:ℝ) ≤ 1) ∧
    (0 ≤ construct (1/3:ℝ) ∧ construct (1/3:ℝ) ≤ 1) :=
  ⟨derived_progress_in_unit_interval.1 5 0 1 (by norm_num),
   derived_progress_in_unit_interval.2.1 (1/2) (by norm_num) (by norm_num),
   (derived_progress_in_unit_interval.2.2 (1/3)).1⟩

/-- C9: at every phase the skin material opacity set by the frame callback is
`clamp01(0.15 + 0.85 * skinAppear)`, hence never below 0.15, and the skin
instance's vertical scale never drops below its 0.01 minimum. -/
theorem skin_opacity_floor :
    ∀ p : ℝ, skinOpacity p = clamp01 (0.15 + 0.85 * skinAppear p) ∧
      0.15 ≤ skinOpacity p ∧ ∀ h : ℝ, 0.01 ≤ skinScaleY h p := by
  intro p
  have hs0 : 0 ≤ skinAppear p :=
    easeInOut_nonneg (remap_nonneg _ _ _) (remap_le_one _ _ _)
  refine ⟨rfl, ?_, fun h => le_max_left _ _⟩
  have hy : (0.15:ℝ) ≤ 0.15 + 0.85 * skinAppear p := by nlinarith
  unfold skinOpacity clamp01
  exact le_min (by norm_num) (le_trans hy (le_max_right _ _))

/-- C6: at every phase in [0,1) the frame rise never exceeds the foundation
rise, the skin appearance is positive only past phase 0.7, and the frame rise
is already positive at phase 0.5 — foundations lead frames, frames lead skins. -/
theorem construction_stage_order :
    (∀ p : ℝ, 0 ≤ p → p < 1 →
      frameRise p ≤ foundationRise p ∧ (0 < skinAppear p → 0.7 < p)) ∧
    0 < frameRise (1/2 : ℝ) := by
  constructor
  · intro p _ _
    constructor
    · have hc0 : 0 ≤ construct p := remap_nonneg _ _ _
      have hc1 : construct p ≤ 1 := remap_le_one _ _ _
      have hkey : clamp01 (construct p * 1.1 - 0.15) ≤ construct p :=
        clamp01_le_of_le (by nlinarith) hc0
      exact easeInOut_mono (clamp01_nonneg _) hkey hc1
    · intro hpos
      by_contra hle
      push_neg at hle
      have hfin : finish p = 0 := by
        unfold finish remap
        exact clamp01_eq_zero (div_nonpos_of_nonpos_of_nonneg (by linarith) (by norm_num))
      have : skinAppear p = 0 := by
        unfold skinAppear
        rw [hfin, easeInOut_zero]
      exact absurd hpos (by rw [this]; exact lt_irrefl 0)
  · norm_num [frameRise, construct, easeInOut, remap, clamp01, min_def, max_def]

/-- C6 witness: the stage-order theorem instantiated at phase 0.5. -/
theorem construction_stage_order_witness :
    (frameRise (1/2:ℝ) ≤ foundationRise (1/2:ℝ) ∧
      (0 < skinAppear (1/2:ℝ) → 0.7 < (1/2:ℝ))) ∧ 0 < frameRise (1/2:ℝ) :=
  ⟨construction_stage_order.1 (1/2) (by norm_num) (by norm_num),
   construction_stage_order.2⟩

/-- C10: the crane material opacity is 0 at phase 0 and tends to 0 as the phase
approaches 1 (with the explicit modulus: beyond phase `1 - min (3ε/8) (1/4)` the
opacity stays below ε) — cranes fade out completely before the loop point. -/
theorem crane_opacity_zero_at_loop :
    craneOpacity (0:ℚ) = 0 ∧
    ∀ ε p : ℚ, 0 < ε → 1 - min (3*ε/8) (1/4) < p → p < 1 → craneOpacity p < ε := by
  constructor
  · norm_num [craneOpacity, remap, clamp01, min_def, max_def]
  · intro ε p hε hlo hhi
    have hp : (3/4:ℚ) < p := by
      have hm : min (3*ε/8) (1/4) ≤ 1/4 := min_le_right _ _
      linarith
    have h1 : remap p 0.4 0.7 = 1 := by
      unfold remap
      exact clamp01_eq_one (by rw [le_div_iff₀ (by norm_num : (0:ℚ) < 0.7 - 0.4)]; linarith)
    have h2 : remap p 0.7 1.0 = (p - 0.7) / (1.0 - 0.7) := by
      unfold remap
      exact clamp01_eq_self (div_nonneg (by linarith) (by norm_num))
        (by rw [div_le_one (by norm_num : (0:ℚ) < 1.0 - 0.7)]; linarith)
    have hnear : 1 - p < 3*ε/8 := by
      have hm : min (3*ε/8) (1/4) ≤ 3*ε/8 := min_le_left _ _
      linarith
    unfold craneOpacity
    rw [h1, h2, show (1:ℚ) * 0.8 * (1.0 - (p - 0.7)/(1.0 - 0.7)) = 8/3 * (1 - p) by ring]
    linarith

/-- C10 witness: the crane opacity bound instantiated at ε = 1 and phase 0.9. -/
theorem crane_opacity_zero_at_loop_witness : craneOpacity ((9:ℚ)/10) < 1 :=
  crane_opacity_zero_at_loop.2 1 (9/10) (by norm_num)
    (by norm_num [min_def]) (by norm_num)

/-- Separation of a jittered coordinate from a road centre line: if the grid
coordinate is at least 8 from the line and the jitter is at most 3/4, the
jittered coordinate stays more than 3 (= half building width 1.4 plus half road
width 1.6) away. -/
theorem jitter_sep {a r j : ℚ} (h : 8 ≤ |a - r|) (hj : |j| ≤ 3/4) :
    3 < |a + j - r| := by
  have h1 : |a - r| ≤ |a + j - r| + |j| := by
    calc |a - r| = |(a + j - r) + (-j)| := by rw [show a - r = (a + j - r) + (-j) by ring]
    _ ≤ |a + j - r| + |(-j)| := abs_add _ _
    _ = |a + j - r| + |j| := by rw [abs_neg]
  linarith

/-- C5: every kept footprint cell avoids the road test (`x % 16 = 0` or
`z % 16 = 0` cells are skipped), and for every jitter outcome in [-3/4, 3/4)
on each axis the jittered building centre stays more than 3 units (half the
2.8-unit building plus half the 3.2-unit road) from every road centre line. -/
theorem footprints_avoid_roads :
    ∀ c ∈ footprintCells,
      (c.1 % 16 ≠ 0 ∧ c.2 % 16 ≠ 0) ∧
      ∀ jx jz : ℚ, -(3/4) ≤ jx → jx < 3/4 → -(3/4) ≤ jz → jz < 3/4 →
        ∀ r ∈ roadLines, 3 < |(c.1:ℚ) + jx - (r:ℚ)| ∧ 3 < |(c.2:ℚ) + jz - (r:ℚ)| := by
  have hsep : ∀ c ∈ footprintCells, ∀ r ∈ roadLines,
      8 ≤ |c.1 - r| ∧ 8 ≤ |c.2 - r| := by decide
  have hskip : ∀ c ∈ footprintCells, c.1 % 16 ≠ 0 ∧ c.2 % 16 ≠ 0 := by decide
  intro c hc
  refine ⟨hskip c hc, ?_⟩
  intro jx jz hjx1 hjx2 hjz1 hjz2 r hr
  obtain ⟨h1, h2⟩ := hsep c hc r hr
  have hx : (8:ℚ) ≤ |(c.1:ℚ) - (r:ℚ)| := by exact_mod_cast h1
  have hz : (8:ℚ) ≤ |(c.2:ℚ) - (r:ℚ)| := by exact_mod_cast h2
  exact ⟨jitter_sep hx (abs_le.mpr ⟨by linarith, by linarith⟩),
    jitter_sep hz (abs_le.mpr ⟨by linarith, by linarith⟩)⟩

/-- C5 witness: the road-avoidance theorem instantiated at the first kept cell
(-40, -40), zero jitter, and the road line at -48. -/
theorem footprints_avoid_roads_witness :
    3 < |((((-40:ℤ), (-40:ℤ)).1 : ℚ)) + 0 - (((-48:ℤ)) : ℚ)| ∧
    3 < |((((-40:ℤ), (-40:ℤ)).2 : ℚ)) + 0 - (((-48:ℤ)) : ℚ)| :=
  (footprints_avoid_roads ((-40:ℤ), (-40:ℤ)) (by decide)).2 0 0
    (by norm_num) (by norm_num) (by norm_num) (by norm_num) (-48) (by decide)

/-- The blueprint pulse factor always stays between 0.2 and 1. -/
theorem pulse_mem (t : ℝ) : 1/5 ≤ pulse t ∧ pulse t ≤ 1 := by
  unfold pulse
  constructor
  · nlinarith [Real.neg_one_le_sin (t * 2.2)]
  · nlinarith [Real.sin_le_one (t * 2.2)]

/-- C3: at phase 0.5 — inside [0.4, 1), outside the early portion of the cycle
(t = 11 s) — the blueprint `appear` value is 1, not 0, and the grid opacity set
by the frame callback is at least 0.2; the grid never fades back out. -/
theorem grid_opacity_nonzero_late :
    gridAppear ((1/2):ℚ) = 1 ∧ phase (11:ℝ) = 1/2 ∧ 1/5 ≤ gridOpacity 11 := by
  have hph : phase (11:ℝ) = 1/2 := by
    rw [phase_of_Ico (by norm_num) (by norm_num)]
    norm_num
  refine ⟨by norm_num [gridAppear, remap, clamp01, min_def, max_def], hph, ?_⟩
  unfold gridOpacity
  rw [hph, show gridAppear ((1/2):ℝ) = 1 by
    norm_num [gridAppear, remap, clamp01, min_def, max_def], one_mul]
  exact (pulse_mem 11).1

/-- C1: at t = 5 s (phase 5/22 ≈ 0.227) the blueprint grid opacity is strictly
positive, as claimed; but at t = 20 s (phase 10/11 ≈ 0.909) the grid opacity is
at least 0.2 — not 0 — because `appear` is clamped to 1 past phase 0.4, while
the skin opacity there is 919/1089 ≈ 0.844. -/
theorem blueprint_scenario_t5_t20 :
    0 < gridOpacity 5 ∧ 1/5 ≤ gridOpacity 20 ∧
    skinOpacity (phase (20:ℝ)) = 919/1089 := by
  have h5 : phase (5:ℝ) = 5/22 := by
    rw [phase_of_Ico (by norm_num) (by norm_num)]
  have h20 : phase (20:ℝ) = 10/11 := by
    rw [phase_of_Ico (by norm_num) (by norm_num)]
    norm_num
  refine ⟨?_, ?_, ?_⟩
  · unfold gridOpacity
    rw [h5, show gridAppear ((5/22):ℝ) = 3/22 by
      norm_num [gridAppear, remap, clamp01, min_def, max_def]]
    nlinarith [(pulse_mem 5).1]
  · unfold gridOpacity
    rw [h20, show gridAppear ((10/11):ℝ) = 1 by
      norm_num [gridAppear, remap, clamp01, min_def, max_def], one_mul]
    exact (pulse_mem 20).1
  · rw [h20]
    norm_num [skinOpacity, skinAppear, finish, easeInOut, remap, clamp01,
      min_def, max_def]

/-- The camera stays on the circle of radius 90 around the scene centre. -/
theorem camera_radius (t : ℝ) : cameraX t ^ 2 + cameraZ t ^ 2 = 90 ^ 2 := by
  unfold cameraX cameraZ
  nlinarith [Real.sin_sq_add_cos_sq (cameraAngle t)]

/-- The camera height oscillates within the band [19, 31]. -/
theorem cameraY_mem (t : ℝ) : 19 ≤ cameraY t ∧ cameraY t ≤ 31 := by
  unfold cameraY
  constructor
  · nlinarith [Real.neg_one_le_sin (t * 0.25)]
  · nlinarith [Real.sin_le_one (t * 0.25)]

/-- Approaching the cycle boundary from the left, the camera angle exceeds its
value at the boundary by more than 3 radians: the orbit parameter collapses
from (almost) 1 back to 0.2 when the phase wraps, so the camera jumps. -/
theorem cameraAngle_jump :
    ∀ δ : ℝ, 0 < δ → δ ≤ 1 → cameraAngle 22 - cameraAngle (22 - δ) < -3 := by
  intro δ h0 h1
  have hph22 : phase (22:ℝ) = 0 := by
    rw [phase_eq_fract (by norm_num), show (22:ℝ)/22 = ((1:ℤ):ℝ) by norm_num,
      Int.fract_intCast]
  have hphδ : phase (22 - δ : ℝ) = 1 - δ/22 := by
    rw [phase_of_Ico (by linarith) (by linarith)]
    ring
  have horb22 : cameraOrbit 22 = 0.2 := by
    unfold cameraOrbit
    rw [hph22]
    norm_num [remap, clamp01, min_def, max_def, easeInOut]
  have hear : easeInOut (remap (1 - δ/22 : ℝ) 0.0 1.0) = 1 - 2 * (δ/22)^2 := by
    have hd : δ/22 ≤ 1/22 := by linarith
    have hmem : remap (1 - δ/22 : ℝ) 0.0 1.0 = 1 - δ/22 := by
      unfold remap
      rw [show ((1 - δ/22 : ℝ) - 0.0)/(1.0 - 0.0) = 1 - δ/22 by norm_num]
      exact clamp01_eq_self (by linarith) (by linarith)
    rw [hmem]
    unfold easeInOut
    rw [if_neg (by push_neg; linarith)]
    ring
  have horbd : cameraOrbit (22 - δ) = 0.2 + 0.8 * (1 - 2 * (δ/22)^2) := by
    unfold cameraOrbit
    rw [hphδ, hear]
  have he1 : (δ/22)^2 ≤ 1/484 := by nlinarith
  have hpi3 : (3:ℝ) < Real.pi := Real.pi_gt_three
  have hstep : 2.4 * Real.pi * (δ/22)^2 ≤ 2.4 * Real.pi * (1/484) :=
    mul_le_mul_of_nonneg_left he1 (by positivity)
  unfold cameraAngle
  rw [horb22, horbd]
  nlinarith [hstep, hpi3, h0, h1]

/-- C4 counterexample: the camera height is not fixed — at t = 2π it is 31 while
at t = 0 it is 25 — and the camera angle jumps by more than 3 radians between
t = 21.9 and t = 22 when the phase wraps, so the position is not continuously
circling at a fixed height. -/
theorem camera_not_fixed_height :
    cameraY (2 * Real.pi) ≠ cameraY 0 ∧
    cameraAngle 22 - cameraAngle (22 - 1/10) < -3 := by
  constructor
  · unfold cameraY
    rw [show (2 * Real.pi) * 0.25 = Real.pi / 2 by ring, Real.sin_pi_div_two,
      show (0:ℝ) * 0.25 = 0 by ring, Real.sin_zero]
    norm_num
  · exact cameraAngle_jump (1/10) (by norm_num) (by norm_num)

/-- C4 amended: at every elapsed time the camera lies on the circle of fixed
radius 90 around the scene centre while its height oscillates inside the band
[19, 31]; the angular position, continuous within a cycle, drops by more than 3
radians at the cycle boundary, so the camera jumps rather than continuously
circling across the phase wrap. -/
theorem camera_fixed_radius_height_band_jump :
    (∀ t : ℝ, cameraX t ^ 2 + cameraZ t ^ 2 = 90 ^ 2 ∧
      19 ≤ cameraY t ∧ cameraY t ≤ 31) ∧
    (∀ δ : ℝ, 0 < δ → δ ≤ 1 → cameraAngle 22 - cameraAngle (22 - δ) < -3) :=
  ⟨fun t => ⟨camera_radius t, (cameraY_mem t).1, (cameraY_mem t).2⟩,
   cameraAngle_jump⟩

/-- C4 witness: the amended camera theorem instantiated at t = 0 and at the
boundary gap δ = 1/2. -/
theorem camera_fixed_radius_height_band_jump_witness :
    (cameraX 0 ^ 2 + cameraZ 0 ^ 2 = 90 ^ 2 ∧ 19 ≤ cameraY 0 ∧ cameraY 0 ≤ 31) ∧
    cameraAngle 22 - cameraAngle (22 - 1/2) < -3 :=
  ⟨camera_fixed_radius_height_band_jump.1 0,
   camera_fixed_radius_height_band_jump.2 (1/2) (by norm_num) (by norm_num)⟩
